import Mathlib

/-!
# Verification of the WebSocket session/messaging layer (`src/server/websocket.ts`)

Shallow embedding of the connection/session lifecycle and message-routing
subsystem.  Sockets are identified by natural numbers; the side effects of a
handler (frames sent, connection closes, persistence calls, log lines) are
recorded as an explicit list of `Effect`s in the order the code performs them.
JSON values are embedded as the inductive `Json`, with JavaScript property
access and truthiness modelled explicitly (property access on `null` throws a
`TypeError`, which the handler's `try/catch` turns into a logged error).
-/

/-- Embedded JSON values (the results of `JSON.parse` on inbound frames and the
payloads of `JSON.stringify` on outbound frames).  Numbers are embedded as
integers: no claim involves non-integral numerics.  An object is its ordered
field list; `JSON.parse` never produces duplicate keys. -/
inductive Json where
  | null : Json
  | bool (b : Bool) : Json
  | num (n : Int) : Json
  | str (s : String) : Json
  | arr (elems : List Json) : Json
  | obj (fields : List (String × Json)) : Json

/-- JavaScript truthiness of a value (`!v` in the source negates this). -/
def jsTruthy : Json → Bool
  | Json.null => false
  | Json.bool b => b
  | Json.num n => n != 0
  | Json.str s => s != ""
  | Json.arr _ => true
  | Json.obj _ => true

/-- Truthiness of a possibly-`undefined` value (`none` models `undefined`). -/
def jsTruthyOpt : Option Json → Bool
  | none => false
  | some v => jsTruthy v

/-- First binding of a key in an association list (field lists, registries). -/
def assocFind {κ β : Type} [DecidableEq κ] : List (κ × β) → κ → Option β
  | [], _ => none
  | (k, v) :: rest, key => if k = key then some v else assocFind rest key

/-- Models `Map.set` and object-spread override: replace the value at an existing key in
place, otherwise append the new binding at the end (JS insertion order). -/
def mapInsert {κ β : Type} [DecidableEq κ] : List (κ × β) → κ → β → List (κ × β)
  | [], key, val => [(key, val)]
  | (k, v) :: rest, key, val =>
      if k = key then (key, val) :: rest else (k, v) :: mapInsert rest key val

/-- Models `Map.delete`: drop the binding of `key` (first occurrence; keys are unique
in every map the server builds). -/
def mapErase {κ β : Type} [DecidableEq κ] : List (κ × β) → κ → List (κ × β)
  | [], _ => []
  | (k, v) :: rest, key => if k = key then rest else (k, v) :: mapErase rest key

/-- JavaScript property access `v.key`.  On `null` it throws a `TypeError`
(modelled as `Except.error`); on any other non-object it yields `undefined`
(`Option.none`); on an object it looks the key up. -/
def getProp : Json → String → Except Unit (Option Json)
  | Json.null, _ => Except.error ()
  | Json.obj fields, key => Except.ok (assocFind fields key)
  | _, _ => Except.ok none

/-- Property access where the receiver is known not to be `null` (used after a
first access has already succeeded). -/
def getPropD (v : Json) (key : String) : Option Json :=
  match getProp v key with
  | Except.ok r => r
  | Except.error _ => none

/-- The own enumerable fields contributed by `{...v}`.  Only objects reach the
spread in the chat path (a primitive cannot carry a `sessionId` property). -/
def fieldsOf : Json → List (String × Json)
  | Json.obj fields => fields
  | _ => []

/-- Evaluates `a || b` on a possibly-undefined string: JavaScript `||` takes the left
operand only when it is truthy, i.e. defined and non-empty. -/
def jsOrString : Option String → String → String
  | some s, b => if s = "" then b else s
  | none, b => b

/-- The `ClientSession` record held in the `activeSessions` registry.  The live
socket `ws` is identified by a number; `userId` is never set. -/
structure Session where
  ws : Nat
  deviceId : String
  sessionId : String
  ipAddress : String
  userId : Option String := none
deriving DecidableEq

/-- One observable side effect of a handler, in program order. -/
inductive Effect where
  | send (ws : Nat) (message : Json)
  | close (ws : Nat) (code : Nat) (reason : String)
  | save (deviceId : String) (content : Option Json)
  | fetchHistory (deviceId : String)
  | logError
  | logUnknown

/-- The session registry `activeSessions : Map<string, ClientSession>`. -/
abbrev Registry := List (String × Session)

/-- Resolves `activeSessions.has(parsed.sessionId)` to the record:
`Map` keys are the string session ids, so a non-string claimed id never
matches (SameValueZero against string keys). -/
def sessionFor (registry : Registry) : Option Json → Option Session
  | some (Json.str s) => assocFind registry s
  | _ => none

/-- The validation guard `!(!parsed.sessionId || !activeSessions.has(parsed.sessionId))`:
the claimed id must be truthy and present in the registry. -/
def validSid (registry : Registry) (sidVal : Option Json) : Bool :=
  jsTruthyOpt sidVal && (sessionFor registry sidVal).isSome

/-- The chat echo `{...parsed, sessionId: session.sessionId, timestamp: ...}`:
the parsed frame's fields with `sessionId` overridden and `timestamp` added. -/
def echoFrame (parsed : Json) (sessionId : String) (now : String) : Json :=
  Json.obj (mapInsert (mapInsert (fieldsOf parsed) "sessionId" (Json.str sessionId))
    "timestamp" (Json.str now))

/-- The `subscribed` acknowledgment.  `JSON.stringify` drops a field whose
value is `undefined`, so a missing `channel` is simply absent from the frame. -/
def subscribedFrame (channel : Option Json) : Json :=
  Json.obj ([("type", Json.str "subscribed")] ++
    (match channel with
     | some v => [("channel", v)]
     | none => []))

/-- Effects of awaiting `saveChatMessage`: a rejection reaches the handler's
`catch`, which logs it; a resolution adds nothing. -/
def saveLog : Except Unit Unit → List Effect
  | Except.ok _ => []
  | Except.error _ => [Effect.logError]

/-- Body of the `message` handler after a successful `JSON.parse`.
`deviceId`/`ws` are the connecting device id and socket captured by the
closure; `now` is the server clock rendered by `toISOString`; `saveOutcome`
is the result of awaiting `saveChatMessage` (its rejection is caught and
logged after the echo has already been sent). -/
def handleParsed (registry : Registry) (deviceId : String) (ws : Nat)
    (parsed : Json) (now : String) (saveOutcome : Except Unit Unit) : List Effect :=
  match getProp parsed "sessionId" with
  | Except.error _ => [Effect.logError]
  | Except.ok sidVal =>
    if validSid registry sidVal then
      match sessionFor registry (getPropD parsed "sessionId") with
      | some session =>
        match getPropD parsed "type" with
        | some (Json.str ty) =>
          if ty = "chat" then
            [Effect.send session.ws (echoFrame parsed session.sessionId now),
             Effect.save deviceId (getPropD parsed "content")] ++ saveLog saveOutcome
          else if ty = "subscribe" then
            [Effect.send ws (subscribedFrame (getPropD parsed "channel"))]
          else
            [Effect.logUnknown]
        | _ => [Effect.logUnknown]
      | none => []
    else
      [Effect.close ws 1008 "Invalid session"]

/-- Result of one `message` event: the registry afterwards (the handler never
mutates `activeSessions`, so it is passed through) and the effect trace. -/
structure HandlerResult where
  registry : Registry
  effects : List Effect

/-- The whole `message` handler: `parseResult` is the outcome of
`JSON.parse(message)` (`error` = the frame is not valid JSON, in which case
the `catch` logs and drops it). -/
def handleMessage (registry : Registry) (deviceId : String) (ws : Nat)
    (parseResult : Except Unit Json) (now : String)
    (saveOutcome : Except Unit Unit) : HandlerResult :=
  match parseResult with
  | Except.error _ => { registry := registry, effects := [Effect.logError] }
  | Except.ok parsed =>
      { registry := registry
        effects := handleParsed registry deviceId ws parsed now saveOutcome }

/-- The handshake metadata the `connection` handler reads from `req`:
the `sec-websocket-key` header and `req.socket.remoteAddress`, either of
which may be absent. -/
structure ConnReq where
  secWebSocketKey : Option String
  remoteAddress : Option String
deriving DecidableEq

/-- Computes `req.headers['sec-websocket-key'] || req.socket.remoteAddress || Date.now().toString()`.
`now1` is the millisecond clock read by the final fallback. -/
def deviceIdOf (req : ConnReq) (now1 : Nat) : String :=
  jsOrString req.secWebSocketKey (jsOrString req.remoteAddress (toString now1))

/-- Builds the template string of `deviceId`, a hyphen and `Date.now()`; `now2`
is the second clock read. -/
def connSessionId (req : ConnReq) (now1 now2 : Nat) : String :=
  deviceIdOf req now1 ++ "-" ++ toString now2

/-- Computes `req.socket.remoteAddress || 'unknown'`. -/
def ipAddressOf (req : ConnReq) : String :=
  jsOrString req.remoteAddress "unknown"

/-- The `session_init` frame sent first on every new connection. -/
def sessionInitFrame (sessionId deviceId ipAddress : String) : Json :=
  Json.obj [("type", Json.str "session_init"), ("sessionId", Json.str sessionId),
    ("deviceId", Json.str deviceId), ("ipAddress", Json.str ipAddress)]

/-- The `connection` welcome frame sent second on every new connection. -/
def connectionFrame (deviceId : String) : Json :=
  Json.obj [("type", Json.str "connection"), ("deviceId", Json.str deviceId),
    ("message", Json.str "Connected to Ecosense WebSocket Server")]

/-- The `history` frame sent when `getChatHistory` resolves. -/
def historyFrame (messages : List Json) : Json :=
  Json.obj [("type", Json.str "history"), ("messages", Json.arr messages)]

/-- The `ClientSession` record built for a new connection. -/
def mkSession (ws : Nat) (req : ConnReq) (now1 now2 : Nat) : Session :=
  { ws := ws
    deviceId := deviceIdOf req now1
    sessionId := connSessionId req now1 now2
    ipAddress := ipAddressOf req
    userId := none }

/-- The synchronous part of the `connection` handler: register the session,
send `session_init` then `connection`, and issue the history fetch. -/
def onConnection (registry : Registry) (ws : Nat) (req : ConnReq)
    (now1 now2 : Nat) : Registry × List Effect :=
  let deviceId := deviceIdOf req now1
  let sessionId := connSessionId req now1 now2
  (mapInsert registry sessionId (mkSession ws req now1 now2),
   [Effect.send ws (sessionInitFrame sessionId deviceId (ipAddressOf req)),
    Effect.send ws (connectionFrame deviceId),
    Effect.fetchHistory deviceId])

/-- The full effect trace of one connection's open phase: the synchronous
sends and fetch request, followed by the history frame once the fetch
resolves.  A rejected fetch has no `.catch`, so its continuation simply never
runs and nothing further is emitted by this code. -/
def connectTrace (ws : Nat) (req : ConnReq) (now1 now2 : Nat)
    (fetchOutcome : Except Unit (List Json)) : List Effect :=
  (onConnection [] ws req now1 now2).2 ++
  (match fetchOutcome with
   | Except.ok history => [Effect.send ws (historyFrame history)]
   | Except.error _ => [])

/-- The `close` handler: `activeSessions.delete(sessionId)` for the session id
captured at connect time. -/
def onClose (registry : Registry) (sessionId : String) : Registry :=
  mapErase registry sessionId

/-- A tracked client as seen by `broadcastMessage` (`wss.clients`): the socket
and its `readyState`. -/
structure WsClient where
  id : Nat
  readyState : Nat
deriving DecidableEq

/-- The transport constant `WebSocket.OPEN`. -/
def wsOPEN : Nat := 1

/-- Models `broadcastMessage(wss, message)`: send the serialized message to each
tracked client whose `readyState` is `OPEN`, skipping all others. -/
def broadcastMessage (clients : List WsClient) (message : Json) : List Effect :=
  clients.filterMap fun client =>
    if client.readyState = wsOPEN then some (Effect.send client.id message) else none

/-! ## Registry lifecycle as a transition system

Connection-open and connection-close events are the only mutations of
`activeSessions`.  `openConns` and `assigned` are ghost observations of the
transport: which sockets are currently open, and which session id each
socket's close handler captured at connect time. -/

/-- The server's registry state plus ghost transport state. -/
structure ServerState where
  registry : Registry
  openConns : List Nat
  assigned : List (Nat × String)
deriving DecidableEq

/-- Lifecycle events: a socket connects (with its handshake metadata and the
two clock reads) or the transport reports a socket closed. -/
inductive Event where
  | connect (ws : Nat) (req : ConnReq) (now1 now2 : Nat)
  | disconnect (ws : Nat)
deriving DecidableEq

/-- The state with no connections. -/
def initState : ServerState :=
  { registry := [], openConns := [], assigned := [] }

/-- Apply one lifecycle event: connect runs the `connection` handler's
registry insertion; disconnect runs the `close` handler's delete for the
session id captured by that socket's closure. -/
def applyEvent (s : ServerState) : Event → ServerState
  | Event.connect ws req now1 now2 =>
      let sid := connSessionId req now1 now2
      { registry := mapInsert s.registry sid (mkSession ws req now1 now2)
        openConns := ws :: s.openConns
        assigned := (ws, sid) :: s.assigned }
  | Event.disconnect ws =>
      { registry :=
          match assocFind s.assigned ws with
          | some sid => onClose s.registry sid
          | none => s.registry
        openConns := s.openConns.filter (fun w => w ≠ ws)
        assigned := s.assigned }

/-- Run a list of lifecycle events from a state. -/
def runEvents (s : ServerState) : List Event → ServerState
  | [] => s
  | e :: es => runEvents (applyEvent s e) es

/-- A transport-well-formed event in state `s`: a connecting socket is a fresh
socket object, and the transport only reports `close` for an open socket. -/
def eventWf (s : ServerState) : Event → Bool
  | Event.connect ws _ _ _ => decide (ws ∉ s.assigned.map Prod.fst)
  | Event.disconnect ws => decide (ws ∈ s.openConns)

/-- A transport-well-formed event whose generated session id is moreover fresh
(the uniqueness the timestamp concatenation is intended, but not guaranteed,
to provide). -/
def eventGood (s : ServerState) : Event → Bool
  | Event.connect ws req now1 now2 =>
      decide (ws ∉ s.assigned.map Prod.fst) &&
      decide (connSessionId req now1 now2 ∉ s.assigned.map Prod.snd)
  | Event.disconnect ws => decide (ws ∈ s.openConns)

/-- A transport-well-formed trace from `s`. -/
def wfFrom (s : ServerState) : List Event → Bool
  | [] => true
  | e :: es => eventWf s e && wfFrom (applyEvent s e) es

/-- A transport-well-formed trace from `s` whose session ids are pairwise
distinct. -/
def goodFrom (s : ServerState) : List Event → Bool
  | [] => true
  | e :: es => eventGood s e && goodFrom (applyEvent s e) es

/-- The session id `sid` has an open owning connection in `s`: some socket
that was assigned `sid` at connect time is still open. -/
def openOwner (s : ServerState) (sid : String) : Prop :=
  ∃ p ∈ s.assigned, p.2 = sid ∧ p.1 ∈ s.openConns

/-- The registry/transport agreement claimed by the spec: a session id is a
key of the registry iff its connection is open. -/
def registryMatchesOpen (s : ServerState) : Prop :=
  ∀ sid : String, (assocFind s.registry sid).isSome = true ↔ openOwner s sid

/-! ## Observation helpers -/

/-- Whether an effect is a frame send. -/
def isSend : Effect → Bool
  | Effect.send _ _ => true
  | _ => false

/-- The persistence append recorded by an effect, if any. -/
def saveEntry : Effect → Option (String × Option Json)
  | Effect.save k c => some (k, c)
  | _ => none

/-- The frames a trace sends on a given socket, in order. -/
def sendsTo (trace : List Effect) (ws : Nat) : List Json :=
  trace.filterMap fun e =>
    match e with
    | Effect.send w m => if w = ws then some m else none
    | _ => none

/-- The `type` field of an outbound frame. -/
def frameType (m : Json) : Option Json := getPropD m "type"

/-! ## Association-list lemmas -/

theorem assocFind_eq_none {κ β : Type} [DecidableEq κ] (l : List (κ × β)) (k : κ) :
    assocFind l k = none ↔ k ∉ l.map Prod.fst := by
  induction l with
  | nil => simp [assocFind]
  | cons p rest ih =>
      obtain ⟨k', v⟩ := p
      by_cases h : k' = k
      · subst h
        simp [assocFind]
      · rw [List.map_cons, List.mem_cons, not_or]
        simp only [assocFind, if_neg h, ih]
        exact ⟨fun h1 => ⟨fun hk => h hk.symm, h1⟩, fun h1 => h1.2⟩

theorem assocFind_isSome_of_mem {κ β : Type} [DecidableEq κ] {l : List (κ × β)} {k : κ}
    (h : k ∈ l.map Prod.fst) : (assocFind l k).isSome = true := by
  cases hf : assocFind l k with
  | none => exact absurd h ((assocFind_eq_none l k).mp hf)
  | some v => rfl

theorem assocFind_mem {κ β : Type} [DecidableEq κ] {l : List (κ × β)} {k : κ} {v : β}
    (h : assocFind l k = some v) : (k, v) ∈ l := by
  induction l with
  | nil => simp [assocFind] at h
  | cons p rest ih =>
      obtain ⟨k', v'⟩ := p
      by_cases hk : k' = k
      · subst hk
        rw [assocFind, if_pos rfl, Option.some_inj] at h
        subst h
        exact List.mem_cons_self _ _
      · rw [assocFind, if_neg hk] at h
        exact List.mem_cons_of_mem _ (ih h)

theorem assocFind_mapInsert_self {κ β : Type} [DecidableEq κ] (l : List (κ × β)) (k : κ) (v : β) :
    assocFind (mapInsert l k v) k = some v := by
  induction l with
  | nil => simp [mapInsert, assocFind]
  | cons p rest ih =>
      obtain ⟨k', v'⟩ := p
      by_cases h : k' = k
      · subst h
        simp [mapInsert, assocFind]
      · rw [mapInsert, if_neg h, assocFind, if_neg h]
        exact ih

theorem assocFind_mapInsert_ne {κ β : Type} [DecidableEq κ] (l : List (κ × β)) {k k' : κ} (v : β)
    (h : k' ≠ k) : assocFind (mapInsert l k v) k' = assocFind l k' := by
  induction l with
  | nil =>
      show (if k = k' then some v else (none : Option β)) = none
      rw [if_neg fun h' : k = k' => h h'.symm]
  | cons p rest ih =>
      obtain ⟨k'', v'⟩ := p
      by_cases hk : k'' = k
      · subst hk
        rw [mapInsert, if_pos rfl, assocFind, assocFind,
          if_neg (fun h' : k'' = k' => h (h' ▸ rfl)), if_neg (fun h' : k'' = k' => h (h' ▸ rfl))]
      · rw [mapInsert, if_neg hk, assocFind, assocFind]
        by_cases hk' : k'' = k'
        · rw [if_pos hk', if_pos hk']
        · rw [if_neg hk', if_neg hk']
          exact ih

theorem mapInsert_of_not_mem {κ β : Type} [DecidableEq κ] {l : List (κ × β)} {k : κ} (v : β)
    (h : k ∉ l.map Prod.fst) : mapInsert l k v = l ++ [(k, v)] := by
  induction l with
  | nil => simp [mapInsert]
  | cons p rest ih =>
      obtain ⟨k', v'⟩ := p
      rw [List.map_cons, List.mem_cons, not_or] at h
      rw [mapInsert, if_neg (fun h' : k' = k => h.1 h'.symm), List.cons_append, ih h.2]

theorem mapErase_sublist {κ β : Type} [DecidableEq κ] (l : List (κ × β)) (k : κ) :
    (mapErase l k).Sublist l := by
  induction l with
  | nil => simp [mapErase]
  | cons p rest ih =>
      obtain ⟨k', v⟩ := p
      by_cases h : k' = k
      · rw [mapErase, if_pos h]
        exact List.sublist_cons_self _ _
      · rw [mapErase, if_neg h]
        exact ih.cons₂ (k', v)

theorem assocFind_mapErase_self {κ β : Type} [DecidableEq κ] {l : List (κ × β)} (k : κ)
    (hnd : (l.map Prod.fst).Nodup) : assocFind (mapErase l k) k = none := by
  induction l with
  | nil => simp [mapErase, assocFind]
  | cons p rest ih =>
      obtain ⟨k', v⟩ := p
      rw [List.map_cons, List.nodup_cons] at hnd
      by_cases h : k' = k
      · subst h
        rw [mapErase, if_pos rfl]
        exact (assocFind_eq_none rest k').mpr hnd.1
      · rw [mapErase, if_neg h, assocFind, if_neg h]
        exact ih hnd.2

theorem assocFind_mapErase_ne {κ β : Type} [DecidableEq κ] (l : List (κ × β)) {k k' : κ}
    (h : k' ≠ k) : assocFind (mapErase l k) k' = assocFind l k' := by
  induction l with
  | nil => simp [mapErase]
  | cons p rest ih =>
      obtain ⟨k'', v⟩ := p
      by_cases hk : k'' = k
      · rw [mapErase, if_pos hk, assocFind,
          if_neg (fun h' : k'' = k' => h (h' ▸ hk ▸ rfl))]
      · rw [mapErase, if_neg hk, assocFind, assocFind]
        by_cases hk' : k'' = k'
        · rw [if_pos hk', if_pos hk']
        · rw [if_neg hk', if_neg hk']
          exact ih

/-! ## Message-handler characterizations -/

theorem validSid_true (registry : Registry) {sid : String} {sess : Session}
    (hne : sid ≠ "") (hreg : assocFind registry sid = some sess) :
    validSid registry (some (Json.str sid)) = true := by
  simp [validSid, jsTruthyOpt, jsTruthy, sessionFor, hreg, bne_iff_ne, hne]

theorem handleParsed_invalid (registry : Registry) (d : String) (ws : Nat) (parsed : Json)
    (now : String) (so : Except Unit Unit) (sidVal : Option Json)
    (hp : getProp parsed "sessionId" = Except.ok sidVal)
    (hv : validSid registry sidVal = false) :
    handleParsed registry d ws parsed now so = [Effect.close ws 1008 "Invalid session"] := by
  unfold handleParsed
  rw [hp]
  simp [hv]

theorem handleParsed_valid_chat (registry : Registry) (d : String) (ws : Nat) (parsed : Json)
    (now : String) (so : Except Unit Unit) (sid : String) (sess : Session)
    (hp : getProp parsed "sessionId" = Except.ok (some (Json.str sid)))
    (hne : sid ≠ "")
    (hreg : assocFind registry sid = some sess)
    (hty : getPropD parsed "type" = some (Json.str "chat")) :
    handleParsed registry d ws parsed now so =
      Effect.send sess.ws (echoFrame parsed sess.sessionId now) ::
      Effect.save d (getPropD parsed "content") :: saveLog so := by
  have hD : getPropD parsed "sessionId" = some (Json.str sid) := by
    unfold getPropD
    rw [hp]
  unfold handleParsed
  rw [hp]
  simp only [validSid_true registry hne hreg, if_true, hD, sessionFor, hreg, hty]
  simp

theorem handleParsed_valid_subscribe (registry : Registry) (d : String) (ws : Nat) (parsed : Json)
    (now : String) (so : Except Unit Unit) (sid : String) (sess : Session)
    (hp : getProp parsed "sessionId" = Except.ok (some (Json.str sid)))
    (hne : sid ≠ "")
    (hreg : assocFind registry sid = some sess)
    (hty : getPropD parsed "type" = some (Json.str "subscribe")) :
    handleParsed registry d ws parsed now so =
      [Effect.send ws (subscribedFrame (getPropD parsed "channel"))] := by
  have hD : getPropD parsed "sessionId" = some (Json.str sid) := by
    unfold getPropD
    rw [hp]
  unfold handleParsed
  rw [hp]
  simp only [validSid_true registry hne hreg, if_true, hD, sessionFor, hreg, hty]
  simp

/-! ## Claim theorems -/

/-- C6: an inbound frame that is not valid JSON is logged and dropped: the
handler emits only the error log, leaves the registry unchanged, sends no
frame, closes nothing, and makes no persistence call. -/
theorem malformed_frame_logged_and_dropped (registry : Registry) (d : String) (ws : Nat)
    (now : String) (so : Except Unit Unit) :
    handleMessage registry d ws (Except.error ()) now so =
      { registry := registry, effects := [Effect.logError] } ∧
    (∀ w m, Effect.send w m ∉ (handleMessage registry d ws (Except.error ()) now so).effects) ∧
    (∀ w c r, Effect.close w c r ∉ (handleMessage registry d ws (Except.error ()) now so).effects) ∧
    (∀ k c, Effect.save k c ∉ (handleMessage registry d ws (Except.error ()) now so).effects) := by
  refine ⟨rfl, ?_, ?_, ?_⟩ <;> simp [handleMessage]

/-- Witness for `malformed_frame_logged_and_dropped` at a concrete state. -/
theorem malformed_frame_logged_and_dropped_witness :
    handleMessage [] "dev" 0 (Except.error ()) "t" (Except.ok ()) =
      { registry := [], effects := [Effect.logError] } ∧
    Effect.send 0 (Json.str "x") ∉
      (handleMessage [] "dev" 0 (Except.error ()) "t" (Except.ok ())).effects :=
  ⟨(malformed_frame_logged_and_dropped [] "dev" 0 "t" (Except.ok ())).1,
   (malformed_frame_logged_and_dropped [] "dev" 0 "t" (Except.ok ())).2.1 0 (Json.str "x")⟩

/-- Counterexample to C1 as stated: the frame `null` parses as JSON and its
`sessionId` field is missing (so in particular not a key of the empty
registry), yet the handler does not close the connection with 1008: property
access on `null` throws a `TypeError`, which the `catch` logs, dropping the
frame. -/
theorem invalid_session_null_frame_counterexample :
    (handleMessage [] "dev" 0 (Except.ok Json.null) "t" (Except.ok ())).effects
        = [Effect.logError] ∧
    (handleMessage [] "dev" 0 (Except.ok Json.null) "t" (Except.ok ())).effects
        ≠ [Effect.close 0 1008 "Invalid session"] := by
  constructor
  · rfl
  · simp [handleMessage, handleParsed, getProp]

/-- C1 (amended): for every inbound frame that parses to a JSON value other
than `null` and whose `sessionId` field is missing or does not resolve to a
registry entry, the message handler closes that connection with code 1008 and
reason "Invalid session", the registry is unchanged, and neither an echo send
nor a persistence append is performed for that frame.  (A frame whose JSON
value is `null` is instead logged and dropped: accessing its `sessionId`
throws.) -/
theorem invalid_session_closes_connection (registry : Registry) (d : String) (ws : Nat)
    (parsed : Json) (now : String) (so : Except Unit Unit) (sidVal : Option Json)
    (hp : getProp parsed "sessionId" = Except.ok sidVal)
    (hbad : sidVal = none ∨ sessionFor registry sidVal = none) :
    (handleMessage registry d ws (Except.ok parsed) now so).effects
        = [Effect.close ws 1008 "Invalid session"] ∧
    (handleMessage registry d ws (Except.ok parsed) now so).registry = registry ∧
    (∀ w m, Effect.send w m ∉ (handleMessage registry d ws (Except.ok parsed) now so).effects) ∧
    (∀ k c, Effect.save k c ∉ (handleMessage registry d ws (Except.ok parsed) now so).effects) := by
  have hv : validSid registry sidVal = false := by
    rcases hbad with h | h
    · rw [h]
      rfl
    · simp [validSid, h]
  have he := handleParsed_invalid registry d ws parsed now so sidVal hp hv
  refine ⟨?_, rfl, ?_, ?_⟩ <;> simp [handleMessage, he]

/-- Witness for `invalid_session_closes_connection`: a chat frame with no
`sessionId` field, against the empty registry. -/
theorem invalid_session_closes_connection_witness :
    getProp (Json.obj [("type", Json.str "chat")]) "sessionId" = Except.ok none ∧
    (handleMessage [] "dev" 3 (Except.ok (Json.obj [("type", Json.str "chat")])) "t"
        (Except.ok ())).effects = [Effect.close 3 1008 "Invalid session"] :=
  ⟨rfl, (invalid_session_closes_connection [] "dev" 3 (Json.obj [("type", Json.str "chat")])
    "t" (Except.ok ()) none rfl (Or.inl rfl)).1⟩

/-- C2: a chat frame carrying a registered `sessionId` produces exactly one
echo send, addressed to the socket stored in the registry record resolved
from that id, carrying the parsed frame's fields augmented with the resolved
`sessionId` and the server-assigned timestamp; the echo is emitted before the
persistence append is awaited (the append and any logging of its failure come
after it in the effect trace).  Registered ids are non-empty
(`deviceId-timestamp`), whence `sid ≠ ""`. -/
theorem chat_echoed_once_to_owner (registry : Registry) (d : String) (ws : Nat)
    (parsed : Json) (now : String) (so : Except Unit Unit) (sid : String) (sess : Session)
    (hp : getProp parsed "sessionId" = Except.ok (some (Json.str sid)))
    (hne : sid ≠ "")
    (hreg : assocFind registry sid = some sess)
    (hty : getPropD parsed "type" = some (Json.str "chat")) :
    (handleMessage registry d ws (Except.ok parsed) now so).effects =
      Effect.send sess.ws (echoFrame parsed sess.sessionId now) ::
      Effect.save d (getPropD parsed "content") :: saveLog so ∧
    (handleMessage registry d ws (Except.ok parsed) now so).effects.countP isSend = 1 := by
  have he := handleParsed_valid_chat registry d ws parsed now so sid sess hp hne hreg hty
  constructor
  · simpa [handleMessage] using he
  · simp only [handleMessage, he]
    cases so <;> simp [saveLog, isSend, List.countP_cons]

/-- Witness for `chat_echoed_once_to_owner` at a concrete registry and frame. -/
theorem chat_echoed_once_to_owner_witness :
    (handleMessage [("d-5", { ws := 7, deviceId := "d", sessionId := "d-5", ipAddress := "ip" })]
        "dev" 3
        (Except.ok (Json.obj [("sessionId", Json.str "d-5"), ("type", Json.str "chat"),
          ("content", Json.str "hi")])) "T" (Except.ok ())).effects =
      [Effect.send 7 (Json.obj [("sessionId", Json.str "d-5"), ("type", Json.str "chat"),
          ("content", Json.str "hi"), ("timestamp", Json.str "T")]),
       Effect.save "dev" (some (Json.str "hi"))] :=
  (chat_echoed_once_to_owner
    [("d-5", { ws := 7, deviceId := "d", sessionId := "d-5", ipAddress := "ip" })] "dev" 3
    (Json.obj [("sessionId", Json.str "d-5"), ("type", Json.str "chat"),
      ("content", Json.str "hi")]) "T" (Except.ok ()) "d-5"
    { ws := 7, deviceId := "d", sessionId := "d-5", ipAddress := "ip" }
    rfl (by decide) rfl rfl).1

/-- C4: the persistence append of a valid chat frame is keyed by the
`deviceId` of the connection the frame arrived on (the closure's `deviceId`
argument `d`), not by the `deviceId` of the registry record resolved from the
frame's `sessionId`, and the appended content is the frame's `content` field:
the appends in the trace are exactly `[(d, content)]`, and when the resolved
record names a different device, no append keyed by that device occurs. -/
theorem append_keyed_by_connecting_device (registry : Registry) (d : String) (ws : Nat)
    (parsed : Json) (now : String) (so : Except Unit Unit) (sid : String) (sess : Session)
    (hp : getProp parsed "sessionId" = Except.ok (some (Json.str sid)))
    (hne : sid ≠ "")
    (hreg : assocFind registry sid = some sess)
    (hty : getPropD parsed "type" = some (Json.str "chat")) :
    (handleMessage registry d ws (Except.ok parsed) now so).effects.filterMap saveEntry =
      [(d, getPropD parsed "content")] ∧
    (sess.deviceId ≠ d → ∀ c,
      Effect.save sess.deviceId c ∉ (handleMessage registry d ws (Except.ok parsed) now so).effects) := by
  have he := handleParsed_valid_chat registry d ws parsed now so sid sess hp hne hreg hty
  constructor
  · simp only [handleMessage, he]
    cases so <;> simp [saveLog, saveEntry]
  · intro hdiff c hmem
    simp only [handleMessage, he] at hmem
    cases so <;> simp [saveLog] at hmem <;> exact hdiff hmem.1

/-- Witness for `append_keyed_by_connecting_device`: the registry record's
device is `"d"` but the connecting device is `"dev"`, and the append is keyed
by `"dev"`. -/
theorem append_keyed_by_connecting_device_witness :
    (handleMessage [("d-5", { ws := 7, deviceId := "d", sessionId := "d-5", ipAddress := "ip" })]
        "dev" 3
        (Except.ok (Json.obj [("sessionId", Json.str "d-5"), ("type", Json.str "chat"),
          ("content", Json.str "hi")])) "T" (Except.ok ())).effects.filterMap saveEntry =
      [("dev", some (Json.str "hi"))] ∧
    Effect.save "d" (some (Json.str "hi")) ∉
      (handleMessage [("d-5", { ws := 7, deviceId := "d", sessionId := "d-5", ipAddress := "ip" })]
        "dev" 3
        (Except.ok (Json.obj [("sessionId", Json.str "d-5"), ("type", Json.str "chat"),
          ("content", Json.str "hi")])) "T" (Except.ok ())).effects :=
  ⟨(append_keyed_by_connecting_device
      [("d-5", { ws := 7, deviceId := "d", sessionId := "d-5", ipAddress := "ip" })] "dev" 3
      (Json.obj [("sessionId", Json.str "d-5"), ("type", Json.str "chat"),
        ("content", Json.str "hi")]) "T" (Except.ok ()) "d-5"
      { ws := 7, deviceId := "d", sessionId := "d-5", ipAddress := "ip" }
      rfl (by decide) rfl rfl).1,
   (append_keyed_by_connecting_device
      [("d-5", { ws := 7, deviceId := "d", sessionId := "d-5", ipAddress := "ip" })] "dev" 3
      (Json.obj [("sessionId", Json.str "d-5"), ("type", Json.str "chat"),
        ("content", Json.str "hi")]) "T" (Except.ok ()) "d-5"
      { ws := 7, deviceId := "d", sessionId := "d-5", ipAddress := "ip" }
      rfl (by decide) rfl rfl).2 (by decide) (some (Json.str "hi"))⟩

/-- C10: session validation inspects only the `sessionId` field.  A chat
frame with a registered `sessionId` but no `content` is still dispatched: it
is echoed (fields plus resolved `sessionId` and timestamp) and an absent
(`undefined`) content is appended to history; a subscribe frame with no
`channel` still receives a `subscribed` acknowledgment carrying no channel
value (`JSON.stringify` drops the undefined field). -/
theorem validation_checks_only_sessionId (registry : Registry) (d : String) (ws : Nat)
    (now : String) (sid : String) (sess : Session)
    (hne : sid ≠ "")
    (hreg : assocFind registry sid = some sess) :
    (handleMessage registry d ws
        (Except.ok (Json.obj [("sessionId", Json.str sid), ("type", Json.str "chat")]))
        now (Except.ok ())).effects =
      [Effect.send sess.ws (Json.obj [("sessionId", Json.str sess.sessionId),
        ("type", Json.str "chat"), ("timestamp", Json.str now)]),
       Effect.save d none] ∧
    (handleMessage registry d ws
        (Except.ok (Json.obj [("sessionId", Json.str sid), ("type", Json.str "subscribe")]))
        now (Except.ok ())).effects =
      [Effect.send ws (Json.obj [("type", Json.str "subscribed")])] := by
  constructor
  · have he := handleParsed_valid_chat registry d ws
      (Json.obj [("sessionId", Json.str sid), ("type", Json.str "chat")]) now (Except.ok ())
      sid sess rfl hne hreg rfl
    simpa [handleMessage, echoFrame, fieldsOf, mapInsert, getPropD, getProp, assocFind,
      saveLog] using he
  · have he := handleParsed_valid_subscribe registry d ws
      (Json.obj [("sessionId", Json.str sid), ("type", Json.str "subscribe")]) now (Except.ok ())
      sid sess rfl hne hreg rfl
    simpa [handleMessage, subscribedFrame, getPropD, getProp, assocFind] using he

/-- Witness for `validation_checks_only_sessionId` at a concrete registry. -/
theorem validation_checks_only_sessionId_witness :
    (handleMessage [("d-5", { ws := 7, deviceId := "d", sessionId := "d-5", ipAddress := "ip" })]
        "dev" 3
        (Except.ok (Json.obj [("sessionId", Json.str "d-5"), ("type", Json.str "chat")]))
        "T" (Except.ok ())).effects =
      [Effect.send 7 (Json.obj [("sessionId", Json.str "d-5"), ("type", Json.str "chat"),
        ("timestamp", Json.str "T")]),
       Effect.save "dev" none] ∧
    (handleMessage [("d-5", { ws := 7, deviceId := "d", sessionId := "d-5", ipAddress := "ip" })]
        "dev" 3
        (Except.ok (Json.obj [("sessionId", Json.str "d-5"), ("type", Json.str "subscribe")]))
        "T" (Except.ok ())).effects =
      [Effect.send 3 (Json.obj [("type", Json.str "subscribed")])] :=
  validation_checks_only_sessionId
    [("d-5", { ws := 7, deviceId := "d", sessionId := "d-5", ipAddress := "ip" })] "dev" 3 "T"
    "d-5" { ws := 7, deviceId := "d", sessionId := "d-5", ipAddress := "ip" }
    (by decide) rfl

/-- C5: persistence failures produce silent continuation.  A rejected
`saveChatMessage` is caught and logged after the echo: the registry is
unchanged, the echo and the append attempt are still in the trace, and no
close or further frame is surfaced.  A rejected `getChatHistory` has no
`.catch` and its `.then` continuation never runs: the connect trace is just
the two welcome frames and the fetch request, with no close and no error
frame. -/
theorem persistence_failure_silent
    (cws : Nat) (req : ConnReq) (now1 now2 : Nat)
    (registry : Registry) (d : String) (ws : Nat) (parsed : Json) (now : String)
    (sid : String) (sess : Session)
    (hp : getProp parsed "sessionId" = Except.ok (some (Json.str sid)))
    (hne : sid ≠ "")
    (hreg : assocFind registry sid = some sess)
    (hty : getPropD parsed "type" = some (Json.str "chat")) :
    (handleMessage registry d ws (Except.ok parsed) now (Except.error ())).registry = registry ∧
    (handleMessage registry d ws (Except.ok parsed) now (Except.error ())).effects =
      [Effect.send sess.ws (echoFrame parsed sess.sessionId now),
       Effect.save d (getPropD parsed "content"), Effect.logError] ∧
    (∀ w c r, Effect.close w c r ∉
      (handleMessage registry d ws (Except.ok parsed) now (Except.error ())).effects) ∧
    connectTrace cws req now1 now2 (Except.error ()) =
      [Effect.send cws (sessionInitFrame (connSessionId req now1 now2) (deviceIdOf req now1)
        (ipAddressOf req)),
       Effect.send cws (connectionFrame (deviceIdOf req now1)),
       Effect.fetchHistory (deviceIdOf req now1)] ∧
    (∀ w c r, Effect.close w c r ∉ connectTrace cws req now1 now2 (Except.error ())) := by
  have he := handleParsed_valid_chat registry d ws parsed now (Except.error ()) sid sess
    hp hne hreg hty
  refine ⟨rfl, ?_, ?_, ?_, ?_⟩
  · simpa [handleMessage, saveLog] using he
  · intro w c r
    simp [handleMessage, he, saveLog]
  · rfl
  · intro w c r
    simp [connectTrace, onConnection]

/-- Witness for `persistence_failure_silent` at a concrete registry, frame and
handshake. -/
theorem persistence_failure_silent_witness :
    (handleMessage [("d-5", { ws := 7, deviceId := "d", sessionId := "d-5", ipAddress := "ip" })]
        "dev" 3
        (Except.ok (Json.obj [("sessionId", Json.str "d-5"), ("type", Json.str "chat"),
          ("content", Json.str "hi")])) "T" (Except.error ())).effects =
      [Effect.send 7 (Json.obj [("sessionId", Json.str "d-5"), ("type", Json.str "chat"),
          ("content", Json.str "hi"), ("timestamp", Json.str "T")]),
       Effect.save "dev" (some (Json.str "hi")), Effect.logError] ∧
    connectTrace 9 { secWebSocketKey := some "K", remoteAddress := none } 5 6
        (Except.error ()) =
      [Effect.send 9 (sessionInitFrame "K-6" "K" "unknown"),
       Effect.send 9 (connectionFrame "K"),
       Effect.fetchHistory "K"] :=
  ⟨(persistence_failure_silent 9 { secWebSocketKey := some "K", remoteAddress := none } 5 6
      [("d-5", { ws := 7, deviceId := "d", sessionId := "d-5", ipAddress := "ip" })] "dev" 3
      (Json.obj [("sessionId", Json.str "d-5"), ("type", Json.str "chat"),
        ("content", Json.str "hi")]) "T" "d-5"
      { ws := 7, deviceId := "d", sessionId := "d-5", ipAddress := "ip" }
      rfl (by decide) rfl rfl).2.1,
   (persistence_failure_silent 9 { secWebSocketKey := some "K", remoteAddress := none } 5 6
      [("d-5", { ws := 7, deviceId := "d", sessionId := "d-5", ipAddress := "ip" })] "dev" 3
      (Json.obj [("sessionId", Json.str "d-5"), ("type", Json.str "chat"),
        ("content", Json.str "hi")]) "T" "d-5"
      { ws := 7, deviceId := "d", sessionId := "d-5", ipAddress := "ip" }
      rfl (by decide) rfl rfl).2.2.2.1⟩

/-- C3: on a new connection, the frames sent on that socket during the
connect phase are exactly one `session_init`, then one `connection`, then the
`history` frame, in that order. -/
theorem connect_frames_in_order (cws : Nat) (req : ConnReq) (now1 now2 : Nat)
    (history : List Json) :
    (sendsTo (connectTrace cws req now1 now2 (Except.ok history)) cws).map frameType =
      [some (Json.str "session_init"), some (Json.str "connection"),
       some (Json.str "history")] := by
  simp [connectTrace, onConnection, sendsTo, frameType, sessionInitFrame, connectionFrame,
    historyFrame, getPropD, getProp, assocFind]

/-- C8: `broadcastMessage` sends the message to every tracked client whose
`readyState` is `OPEN` at the time of the call; every emitted effect is such
a send; and (when socket ids identify clients uniquely) a client in any other
state receives nothing — it is skipped silently, with no error effect of any
kind. -/
theorem broadcast_only_open_clients (clients : List WsClient) (msg : Json) :
    (∀ c ∈ clients, c.readyState = wsOPEN →
      Effect.send c.id msg ∈ broadcastMessage clients msg) ∧
    (∀ e ∈ broadcastMessage clients msg,
      ∃ c ∈ clients, c.readyState = wsOPEN ∧ e = Effect.send c.id msg) ∧
    ((clients.map WsClient.id).Nodup →
      ∀ c ∈ clients, c.readyState ≠ wsOPEN →
        Effect.send c.id msg ∉ broadcastMessage clients msg) := by
  refine ⟨?_, ?_, ?_⟩
  · intro c hc hopen
    rw [broadcastMessage, List.mem_filterMap]
    exact ⟨c, hc, by simp [hopen]⟩
  · intro e he
    rw [broadcastMessage, List.mem_filterMap] at he
    obtain ⟨c, hc, hf⟩ := he
    by_cases h : c.readyState = wsOPEN
    · rw [if_pos h, Option.some_inj] at hf
      exact ⟨c, hc, h, hf.symm⟩
    · rw [if_neg h] at hf
      exact absurd hf (by simp)
  · intro hnd c hc hnot hmem
    rw [broadcastMessage, List.mem_filterMap] at hmem
    obtain ⟨c', hc', hf⟩ := hmem
    by_cases h : c'.readyState = wsOPEN
    · rw [if_pos h, Option.some_inj] at hf
      have hid : c'.id = c.id := (Effect.send.injEq _ _ _ _).mp hf |>.1
      have : c' = c := List.inj_on_of_nodup_map hnd hc' hc hid
      exact hnot (this ▸ h)
    · rw [if_neg h] at hf
      exact absurd hf (by simp)

/-- Witness for `broadcast_only_open_clients`: two clients, one `OPEN`, one
`CLOSED`. -/
theorem broadcast_only_open_clients_witness :
    Effect.send 0 (Json.str "x") ∈
      broadcastMessage [{ id := 0, readyState := 1 }, { id := 1, readyState := 3 }]
        (Json.str "x") ∧
    Effect.send 1 (Json.str "x") ∉
      broadcastMessage [{ id := 0, readyState := 1 }, { id := 1, readyState := 3 }]
        (Json.str "x") :=
  ⟨(broadcast_only_open_clients [{ id := 0, readyState := 1 }, { id := 1, readyState := 3 }]
      (Json.str "x")).1 { id := 0, readyState := 1 } (by simp) rfl,
   (broadcast_only_open_clients [{ id := 0, readyState := 1 }, { id := 1, readyState := 3 }]
      (Json.str "x")).2.2 (by decide) { id := 1, readyState := 3 } (by simp) (by decide)⟩

/-- The device id as the claim words it, for comparison with the code's
`deviceIdOf`: the first *defined* value among the protocol key header, the
remote socket address, and the timestamp string (availability alone, with no
truthiness test). -/
def specDeviceIdFirstDefined (req : ConnReq) (now1 : Nat) : String :=
  match req.secWebSocketKey with
  | some s => s
  | none =>
      match req.remoteAddress with
      | some a => a
      | none => toString now1

/-- Counterexample to C9 as stated: with a defined but empty
`sec-websocket-key` header, the first *defined* value is `""`, but the code's
`||` chain skips the empty string and takes the remote address instead. -/
theorem device_id_first_defined_counterexample :
    deviceIdOf { secWebSocketKey := some "", remoteAddress := some "10.0.0.1" } 5 = "10.0.0.1" ∧
    specDeviceIdFirstDefined { secWebSocketKey := some "", remoteAddress := some "10.0.0.1" } 5
      = "" ∧
    deviceIdOf { secWebSocketKey := some "", remoteAddress := some "10.0.0.1" } 5 ≠
      specDeviceIdFirstDefined { secWebSocketKey := some "", remoteAddress := some "10.0.0.1" } 5 := by
  refine ⟨rfl, rfl, ?_⟩
  decide

/-- C9 (amended): identity assignment is total (every fall-through case is
covered) and `deviceId` is the first *truthy* — defined and non-empty —
value among the protocol key header, the remote socket address, and the
timestamp string; `sessionId` is the concatenation of that `deviceId`, a
hyphen, and the connection's creation timestamp. -/
theorem identity_assignment_truthy_chain (req : ConnReq) (now1 now2 : Nat) :
    (∀ s, req.secWebSocketKey = some s → s ≠ "" → deviceIdOf req now1 = s) ∧
    (∀ a, (req.secWebSocketKey = none ∨ req.secWebSocketKey = some "") →
      req.remoteAddress = some a → a ≠ "" → deviceIdOf req now1 = a) ∧
    ((req.secWebSocketKey = none ∨ req.secWebSocketKey = some "") →
      (req.remoteAddress = none ∨ req.remoteAddress = some "") →
      deviceIdOf req now1 = toString now1) ∧
    connSessionId req now1 now2 = deviceIdOf req now1 ++ "-" ++ toString now2 := by
  refine ⟨?_, ?_, ?_, rfl⟩
  · intro s hk hs
    simp [deviceIdOf, jsOrString, hk, hs]
  · intro a hk ha hne
    rcases hk with hk | hk <;> simp [deviceIdOf, jsOrString, hk, ha, hne]
  · intro hk ha
    rcases hk with hk | hk <;> rcases ha with ha | ha <;>
      simp [deviceIdOf, jsOrString, hk, ha]

/-- Witness for `identity_assignment_truthy_chain`: a connection with a
non-empty key header. -/
theorem identity_assignment_truthy_chain_witness :
    deviceIdOf { secWebSocketKey := some "K", remoteAddress := some "10.0.0.1" } 5 = "K" ∧
    connSessionId { secWebSocketKey := some "K", remoteAddress := some "10.0.0.1" } 5 9 =
      deviceIdOf { secWebSocketKey := some "K", remoteAddress := some "10.0.0.1" } 5 ++ "-" ++
        toString 9 :=
  ⟨(identity_assignment_truthy_chain
      { secWebSocketKey := some "K", remoteAddress := some "10.0.0.1" } 5 9).1 "K" rfl
      (by decide),
   (identity_assignment_truthy_chain
      { secWebSocketKey := some "K", remoteAddress := some "10.0.0.1" } 5 9).2.2.2⟩

/-! ## The registry lifecycle invariant (claim C7) -/

/-- Induction invariant for the lifecycle transition system: the registry
keys are exactly the session ids of open connections, socket ids and session
ids are assigned at most once, every open socket has an assignment, and the
registry has no duplicate keys. -/
structure StateInv (s : ServerState) : Prop where
  agree : registryMatchesOpen s
  fstNodup : (s.assigned.map Prod.fst).Nodup
  sndNodup : (s.assigned.map Prod.snd).Nodup
  openSub : ∀ w ∈ s.openConns, w ∈ s.assigned.map Prod.fst
  regNodup : (s.registry.map Prod.fst).Nodup

theorem stateInv_init : StateInv initState := by
  refine ⟨?_, ?_, ?_, ?_, ?_⟩ <;>
    simp [initState, registryMatchesOpen, openOwner, assocFind]

theorem stateInv_connect (s : ServerState) (ws : Nat) (req : ConnReq) (now1 now2 : Nat)
    (hI : StateInv s)
    (hws : ws ∉ s.assigned.map Prod.fst)
    (hsid : connSessionId req now1 now2 ∉ s.assigned.map Prod.snd) :
    StateInv (applyEvent s (Event.connect ws req now1 now2)) := by
  have hreg : connSessionId req now1 now2 ∉ s.registry.map Prod.fst := by
    intro hmem
    obtain ⟨p, hp, hp2, _⟩ := (hI.agree _).mp (assocFind_isSome_of_mem hmem)
    exact hsid (List.mem_map.mpr ⟨p, hp, hp2⟩)
  refine ⟨?_, ?_, ?_, ?_, ?_⟩
  · intro sid'
    show (assocFind (mapInsert s.registry (connSessionId req now1 now2) _) sid').isSome = true
      ↔ openOwner _ sid'
    by_cases hs : sid' = connSessionId req now1 now2
    · subst hs
      rw [assocFind_mapInsert_self]
      simp only [Option.isSome_some, true_iff]
      exact ⟨(ws, connSessionId req now1 now2), List.mem_cons_self _ _, rfl,
        List.mem_cons_self _ _⟩
    · rw [assocFind_mapInsert_ne _ _ hs, hI.agree sid']
      constructor
      · rintro ⟨p, hp, hp2, hopen⟩
        exact ⟨p, List.mem_cons_of_mem _ hp, hp2, List.mem_cons_of_mem _ hopen⟩
      · rintro ⟨p, hp, hp2, hopen⟩
        rcases List.mem_cons.mp hp with hhd | htl
        · rw [hhd] at hp2
          exact absurd hp2.symm hs
        · rcases List.mem_cons.mp hopen with hw | hw
          · exact absurd (List.mem_map.mpr ⟨p, htl, hw⟩) hws
          · exact ⟨p, htl, hp2, hw⟩
  · show (((ws, connSessionId req now1 now2) :: s.assigned).map Prod.fst).Nodup
    rw [List.map_cons]
    exact List.nodup_cons.mpr ⟨hws, hI.fstNodup⟩
  · show (((ws, connSessionId req now1 now2) :: s.assigned).map Prod.snd).Nodup
    rw [List.map_cons]
    exact List.nodup_cons.mpr ⟨hsid, hI.sndNodup⟩
  · intro w hw
    show w ∈ ((ws, connSessionId req now1 now2) :: s.assigned).map Prod.fst
    rw [List.map_cons]
    rcases List.mem_cons.mp hw with hw | hw
    · exact hw ▸ List.mem_cons_self _ _
    · exact List.mem_cons_of_mem _ (hI.openSub w hw)
  · show ((mapInsert s.registry (connSessionId req now1 now2) _).map Prod.fst).Nodup
    rw [mapInsert_of_not_mem _ hreg, List.map_append]
    simp [List.nodup_append, hI.regNodup, hreg]

theorem stateInv_disconnect (s : ServerState) (ws : Nat)
    (hI : StateInv s) (hws : ws ∈ s.openConns) :
    StateInv (applyEvent s (Event.disconnect ws)) := by
  have hkey : ws ∈ s.assigned.map Prod.fst := hI.openSub ws hws
  obtain ⟨sid0, hfind⟩ : ∃ sid0, assocFind s.assigned ws = some sid0 := by
    cases hf : assocFind s.assigned ws with
    | none => exact absurd hkey ((assocFind_eq_none _ _).mp hf)
    | some v => exact ⟨v, rfl⟩
  have hmem0 : (ws, sid0) ∈ s.assigned := assocFind_mem hfind
  have hstate : applyEvent s (Event.disconnect ws) =
      { registry := mapErase s.registry sid0
        openConns := s.openConns.filter (fun w => w ≠ ws)
        assigned := s.assigned } := by
    simp [applyEvent, hfind, onClose]
  rw [hstate]
  refine ⟨?_, hI.fstNodup, hI.sndNodup, ?_, ?_⟩
  · intro sid'
    show (assocFind (mapErase s.registry sid0) sid').isSome = true ↔ openOwner _ sid'
    by_cases hs : sid' = sid0
    · subst hs
      rw [assocFind_mapErase_self _ hI.regNodup]
      simp only [Option.isSome_none, Bool.false_eq_true, false_iff]
      rintro ⟨p, hp, hp2, hopen⟩
      have hpe : p = (ws, sid') :=
        List.inj_on_of_nodup_map hI.sndNodup hp hmem0 hp2
      have hne : p.1 ≠ ws := by simpa using (List.mem_filter.mp hopen).2
      exact hne (by rw [hpe])
    · rw [assocFind_mapErase_ne _ hs, hI.agree sid']
      constructor
      · rintro ⟨p, hp, hp2, hopen⟩
        refine ⟨p, hp, hp2, List.mem_filter.mpr ⟨hopen, ?_⟩⟩
        simp only [ne_eq, decide_eq_true_eq]
        intro hpw
        have hpe : p = (ws, sid0) :=
          List.inj_on_of_nodup_map hI.fstNodup hp hmem0 hpw
        rw [hpe] at hp2
        exact hs hp2.symm
      · rintro ⟨p, hp, hp2, hopen⟩
        exact ⟨p, hp, hp2, (List.mem_filter.mp hopen).1⟩
  · intro w hw
    exact hI.openSub w (List.mem_filter.mp hw).1
  · exact hI.regNodup.sublist ((mapErase_sublist _ _).map Prod.fst)

theorem stateInv_runEvents (es : List Event) (s : ServerState)
    (hI : StateInv s) (hg : goodFrom s es = true) : StateInv (runEvents s es) := by
  induction es generalizing s with
  | nil => exact hI
  | cons e es ih =>
      rw [goodFrom, Bool.and_eq_true] at hg
      rw [runEvents]
      refine ih _ ?_ hg.2
      cases e with
      | connect ws req now1 now2 =>
          rw [eventGood, Bool.and_eq_true, decide_eq_true_eq, decide_eq_true_eq] at hg
          exact stateInv_connect s ws req now1 now2 hI hg.1.1 hg.1.2
      | disconnect ws =>
          rw [eventGood, decide_eq_true_eq] at hg
          exact stateInv_disconnect s ws hI hg.1

/-- A transport-well-formed lifecycle trace in which two connections from the
same address arrive in the same millisecond: both derive the session id
`"a-1"`, and the second `Map.set` overwrites the first's registry entry. -/
def collisionTrace : List Event :=
  [Event.connect 0 { secWebSocketKey := none, remoteAddress := some "a" } 1 1,
   Event.connect 1 { secWebSocketKey := none, remoteAddress := some "a" } 1 1,
   Event.disconnect 0]

/-- Counterexample to C7 as stated: after `collisionTrace`, connection `1` is
still open and owns session id `"a-1"` (assigned at its connect), yet
`"a-1"` is not a key of the registry — the first connection's close handler
deleted the shared key.  So "a sessionId is a key of the registry iff its
connection is open" fails on a transport-well-formed trace. -/
theorem registry_key_iff_open_counterexample :
    wfFrom initState collisionTrace = true ∧
    (1, "a-1") ∈ (runEvents initState collisionTrace).assigned ∧
    1 ∈ (runEvents initState collisionTrace).openConns ∧
    assocFind (runEvents initState collisionTrace).registry "a-1" = none ∧
    ¬ registryMatchesOpen (runEvents initState collisionTrace) := by
  refine ⟨rfl, by decide, by decide, rfl, ?_⟩
  intro h
  have h1 : openOwner (runEvents initState collisionTrace) "a-1" :=
    ⟨(1, "a-1"), by decide, rfl, by decide⟩
  have h2 := (h "a-1").mpr h1
  exact absurd h2 (by decide)

/-- C7 (amended): along any transport-well-formed lifecycle trace whose
generated session ids are pairwise distinct, a session id is a key of the
registry iff its owning connection is open; in particular, once a
connection's socket has closed, its session id has been removed and any
later frame (from any connection) referencing that id is met with the
1008/"Invalid session" close.  Without the distinctness proviso the iff
fails, see `collisionTrace`: the two clock reads have millisecond resolution
and the id is not collision-checked. -/
theorem registry_key_iff_connection_open (es : List Event)
    (hg : goodFrom initState es = true) :
    registryMatchesOpen (runEvents initState es) ∧
    (∀ ws sid, (ws, sid) ∈ (runEvents initState es).assigned →
      ws ∉ (runEvents initState es).openConns →
      assocFind (runEvents initState es).registry sid = none ∧
      (∀ d w parsed now so,
        getProp parsed "sessionId" = Except.ok (some (Json.str sid)) →
        (handleMessage (runEvents initState es).registry d w (Except.ok parsed) now
            so).effects = [Effect.close w 1008 "Invalid session"])) := by
  have hI := stateInv_runEvents es initState stateInv_init hg
  refine ⟨hI.agree, ?_⟩
  intro ws sid hmem hclosed
  have hnone : assocFind (runEvents initState es).registry sid = none := by
    cases hf : assocFind (runEvents initState es).registry sid with
    | none => rfl
    | some v =>
        obtain ⟨p, hp, hp2, hopen⟩ := (hI.agree sid).mp (by rw [hf]; rfl)
        have hpe : p = (ws, sid) := List.inj_on_of_nodup_map hI.sndNodup hp hmem hp2
        have hpw : p.1 = ws := by rw [hpe]
        exact absurd (hpw ▸ hopen) hclosed
  refine ⟨hnone, ?_⟩
  intro d w parsed now so hp
  have hv : validSid (runEvents initState es).registry (some (Json.str sid)) = false := by
    simp [validSid, sessionFor, hnone]
  show handleParsed (runEvents initState es).registry d w parsed now so =
    [Effect.close w 1008 "Invalid session"]
  exact handleParsed_invalid _ d w parsed now so _ hp hv

/-- Witness for `registry_key_iff_connection_open`: one connection opens and
closes; afterwards a chat frame naming its session id is rejected with the
invalid-session close. -/
theorem registry_key_iff_connection_open_witness :
    goodFrom initState
      [Event.connect 0 { secWebSocketKey := none, remoteAddress := some "a" } 1 1,
       Event.disconnect 0] = true ∧
    (handleMessage
        (runEvents initState
          [Event.connect 0 { secWebSocketKey := none, remoteAddress := some "a" } 1 1,
           Event.disconnect 0]).registry "dev" 5
        (Except.ok (Json.obj [("sessionId", Json.str "a-1"), ("type", Json.str "chat")]))
        "T" (Except.ok ())).effects = [Effect.close 5 1008 "Invalid session"] :=
  ⟨rfl,
   ((registry_key_iff_connection_open
      [Event.connect 0 { secWebSocketKey := none, remoteAddress := some "a" } 1 1,
       Event.disconnect 0] rfl).2 0 "a-1" (by decide) (by decide)).2 "dev" 5
      (Json.obj [("sessionId", Json.str "a-1"), ("type", Json.str "chat")]) "T"
      (Except.ok ()) rfl⟩
